import Mathlib

/-!
# Verification of the NCRP data-ingestion core (`mem1.py`)

A shallow embedding, in Lean 4, of the ingestion / normalization /
deduplication engine implemented by `NCRPDataIngestionAgent` in `mem1.py`,
together with theorems settling the frozen specification claims.

Modelling conventions:
* Python strings are Lean `String`s; character classes (`\s`, `\w`, `\d`,
  `str.lower`, `str.title`) are modelled over the ASCII range, which covers
  every value the pipeline manufactures and every claim instance.
* Python floats that hold monetary amounts are modelled as exact rationals
  (`ℚ`); no claim depends on binary floating-point rounding.
* Python `None` is `Option.none`; a dict field that is always a string is a
  Lean `String`; fallible steps return `Except` / `Option`.
* The process-scoped `set` of seen duplicate keys is a `Finset String`;
  `hashlib.md5(...).hexdigest()` is implemented bit-faithfully below.
-/

namespace NCRP

/-! ## Python string primitives (ASCII model) -/

/-- Characters matched by Python's `str.strip()` / regex `\s` (ASCII range):
space, tab, newline, carriage return, vertical tab, form feed. -/
def pyIsSpace (c : Char) : Bool :=
  c = ' ' || c = '\t' || c = '\n' || c = '\r' || c = '\x0b' || c = '\x0c'

/-- Python `str.strip()` on a character list. -/
def pyStripList (l : List Char) : List Char :=
  ((l.dropWhile pyIsSpace).reverse.dropWhile pyIsSpace).reverse

/-- Python `str.strip()`. -/
def pyStrip (s : String) : String := ⟨pyStripList s.data⟩

/-- Python `str.lower()` (ASCII model). -/
def pyLower (s : String) : String := ⟨s.data.map Char.toLower⟩

/-- Boolean "contiguous sublist" test. -/
def infixOfB (needle : List Char) : List Char → Bool
  | [] => needle.isPrefixOf []
  | c :: cs => needle.isPrefixOf (c :: cs) || infixOfB needle cs

/-- Python `needle in hay` substring test (case-sensitive). -/
def pyContains (hay needle : String) : Bool := infixOfB needle.data hay.data

/-- Model of `re.search(pat, text, re.IGNORECASE)` for a plain-word pattern:
case-insensitive substring test. -/
def searchCI (pat text : String) : Bool :=
  infixOfB (pyLower pat).data (pyLower text).data

/-! ## `_clean_text` -/

/-- Characters kept by `re.sub(r'[^\w\s\-.,@()]', '', text)`: word characters
(`\w` = alphanumeric **or underscore**), whitespace, hyphen, period, comma,
`@`, parentheses. -/
def cleanKeepChar (c : Char) : Bool :=
  c.isAlphanum || c = '_' || pyIsSpace c ||
  c = '-' || c = '.' || c = ',' || c = '@' || c = '(' || c = ')'

/-- Model of `re.sub(r'\s+', ' ', l)`: replace each maximal whitespace run by a single
space.  The flag records whether the previous character was whitespace. -/
def collapseWsAux : Bool → List Char → List Char
  | _, [] => []
  | prevSpace, c :: cs =>
    if pyIsSpace c then
      if prevSpace then collapseWsAux true cs
      else ' ' :: collapseWsAux true cs
    else c :: collapseWsAux false cs

def collapseWs (l : List Char) : List Char := collapseWsAux false l

/-- Embedding of `_clean_text` (mem1.py:676): on falsy input return `""`; else collapse
whitespace runs on the stripped text, drop characters outside the kept class,
and strip again. -/
def clean_text (s : String) : String :=
  if s = "" then ""
  else ⟨pyStripList ((collapseWs (pyStripList s.data)).filter cleanKeepChar)⟩

/-! ## `_normalize_mobile` -/

/-- Embedding of `_normalize_mobile` (mem1.py:689): on falsy input return `""`; else keep
only digit characters (`re.sub(r'\D', '', mobile)`) and, if more than 10
remain, keep the last 10. -/
def normalize_mobile (s : String) : String :=
  if s = "" then ""
  else
    let digits := s.data.filter Char.isDigit
    if digits.length > 10 then ⟨digits.drop (digits.length - 10)⟩
    else ⟨digits⟩


/-! ## `_normalize_email`, `_normalize_category`, `_normalize_platform`,
`_normalize_status` -/

/-- Embedding of `_normalize_email` (mem1.py:703): lowercase and strip; the regex check
only emits a log warning, the (possibly invalid) value is returned either
way. -/
def normalize_email (s : String) : String :=
  if s = "" then "" else pyStrip (pyLower s)

/-- Python `str.title()` (ASCII model): first cased character of each
letter-run uppercased, the rest lowercased. -/
def pyTitleAux : Bool → List Char → List Char
  | _, [] => []
  | prevAlpha, c :: cs =>
    if c.isAlpha then
      (if prevAlpha then c.toLower else c.toUpper) :: pyTitleAux true cs
    else c :: pyTitleAux false cs

def pyTitle (s : String) : String := ⟨pyTitleAux false s.data⟩

def category_map : List (String × String) :=
  [("online financial fraud", "Online Financial Fraud"),
   ("upi fraud", "UPI Fraud"),
   ("cyber fraud", "Cyber Fraud"),
   ("banking fraud", "Banking Fraud"),
   ("card fraud", "Card Fraud"),
   ("debit card fraud", "Debit Card Fraud"),
   ("credit card fraud", "Credit Card Fraud"),
   ("phishing", "Phishing"),
   ("identity theft", "Identity Theft"),
   ("social media fraud", "Social Media Fraud")]

/-- Embedding of `_normalize_category` (mem1.py:717): strip, then case-insensitive table
lookup, defaulting to title case. -/
def normalize_category (s : String) : String :=
  if s = "" then ""
  else
    let c := pyStrip s
    match category_map.lookup (pyLower c) with
    | some v => v
    | none => pyTitle c

def platform_map : List (String × String) :=
  [("phonepe", "PhonePe"), ("phone pe", "PhonePe"),
   ("google pay", "Google Pay"), ("googlepay", "Google Pay"),
   ("gpay", "Google Pay"), ("paytm", "Paytm"),
   ("amazon pay", "Amazon Pay"), ("bhim", "BHIM"),
   ("upi", "UPI"), ("imps", "IMPS"), ("neft", "NEFT"), ("rtgs", "RTGS"),
   ("net banking", "Net Banking"), ("netbanking", "Net Banking")]

/-- Embedding of `_normalize_platform` (mem1.py:740): falsy input gives `"Unknown"`;
otherwise strip and case-insensitive table lookup, unmapped values pass
through. -/
def normalize_platform (s : String) : String :=
  if s = "" then "Unknown"
  else
    let p := pyStrip s
    match platform_map.lookup (pyLower p) with
    | some v => v
    | none => p

def status_map : List (String × String) :=
  [("under process", "Under Process"), ("under enquiry", "Under Enquiry"),
   ("under investigation", "Under Investigation"),
   ("complaint accepted", "Complaint Accepted"),
   ("complaint registered", "Complaint Registered"),
   ("fir registered", "FIR Registered"),
   ("closed", "Closed"), ("resolved", "Resolved"), ("pending", "Pending")]

/-- Embedding of `_normalize_status` (mem1.py:766): falsy input gives `"Under Process"`;
otherwise strip and case-insensitive table lookup, unmapped values pass
through. -/
def normalize_status (s : String) : String :=
  if s = "" then "Under Process"
  else
    let st := pyStrip s
    match status_map.lookup (pyLower st) with
    | some v => v
    | none => st

/-! ## `_normalize_date`

The source calls `dateutil.parser.parse(date_str, dayfirst=True)` and
re-renders via `strftime`.  `dateutil` is a third-party library; it is
modelled here (`dateutilParse`) exactly on the two normalized textual shapes
`YYYY-MM-DD` and `YYYY-MM-DD HH:MM:SS`, which is the whole domain quantified
over by the date claims.  The model was validated against
python-dateutil 2.9.0 with `dayfirst=True`:
* tokens `Y-A-B`: when `B > 12`, month := `A`, day := `B`; otherwise
  (day-first preference) day := `A`, month := `B`;
* the parse fails unless `1 ≤ year ≤ 9999`, `1 ≤ month ≤ 12`,
  `1 ≤ day ≤ days-in-month` (proleptic Gregorian), hour `< 24`,
  minute `< 60`, second `< 60`;
* any other input shape is treated as a parse failure, falling to the
  source's manual regex fallback (embedded below), faithful on the shapes
  the claims quantify over.
-/

def charVal (c : Char) : ℕ := c.toNat - 48

structure ParsedDate where
  year : ℕ
  month : ℕ
  day : ℕ
  hour : ℕ
  minute : ℕ
  second : ℕ
deriving DecidableEq

def isLeap (y : ℕ) : Bool := y % 4 = 0 && (y % 100 ≠ 0 || y % 400 = 0)

def daysInMonth (y m : ℕ) : ℕ :=
  if m = 2 then (if isLeap y then 29 else 28)
  else if m = 4 || m = 6 || m = 9 || m = 11 then 30
  else 31

/-- dayfirst resolution plus calendar/time validity, per the model above. -/
def resolveDayfirst (y a b h mi s : ℕ) : Option ParsedDate :=
  let (m, d) := if b > 12 then (a, b) else (b, a)
  if 1 ≤ y && y ≤ 9999 && 1 ≤ m && m ≤ 12 && 1 ≤ d && d ≤ daysInMonth y m
     && h < 24 && mi < 60 && s < 60 then
    some ⟨y, m, d, h, mi, s⟩
  else none

def allDigits (l : List Char) : Bool := l.all Char.isDigit

/-- Parse the two normalized fixed-width shapes (model of the dateutil
call restricted to them). -/
def dateutilParse : List Char → Option ParsedDate
  | [y1, y2, y3, y4, '-', a1, a2, '-', b1, b2] =>
    if allDigits [y1, y2, y3, y4, a1, a2, b1, b2] then
      resolveDayfirst
        (charVal y1 * 1000 + charVal y2 * 100 + charVal y3 * 10 + charVal y4)
        (charVal a1 * 10 + charVal a2) (charVal b1 * 10 + charVal b2) 0 0 0
    else none
  | [y1, y2, y3, y4, '-', a1, a2, '-', b1, b2, ' ',
     h1, h2, ':', m1, m2, ':', s1, s2] =>
    if allDigits [y1, y2, y3, y4, a1, a2, b1, b2, h1, h2, m1, m2, s1, s2] then
      resolveDayfirst
        (charVal y1 * 1000 + charVal y2 * 100 + charVal y3 * 10 + charVal y4)
        (charVal a1 * 10 + charVal a2) (charVal b1 * 10 + charVal b2)
        (charVal h1 * 10 + charVal h2) (charVal m1 * 10 + charVal m2)
        (charVal s1 * 10 + charVal s2)
    else none
  | _ => none

def pad2 (n : ℕ) : List Char := [Nat.digitChar (n / 10 % 10), Nat.digitChar (n % 10)]

def pad4 (n : ℕ) : List Char :=
  [Nat.digitChar (n / 1000 % 10), Nat.digitChar (n / 100 % 10),
   Nat.digitChar (n / 10 % 10), Nat.digitChar (n % 10)]

/-- glibc `%Y`: decimal year without zero padding (4 digits for
`1000 ≤ y ≤ 9999`). -/
def yearChars (y : ℕ) : List Char :=
  if y < 10 then [Nat.digitChar y]
  else if y < 100 then pad2 y
  else if y < 1000 then
    [Nat.digitChar (y / 100), Nat.digitChar (y / 10 % 10), Nat.digitChar (y % 10)]
  else pad4 y

/-- Model of `strftime('%Y-%m-%d')`. -/
def strfDate (p : ParsedDate) : List Char :=
  yearChars p.year ++ '-' :: pad2 p.month ++ '-' :: pad2 p.day

/-- Model of `strftime('%Y-%m-%d %H:%M:%S')`. -/
def strfDateTime (p : ParsedDate) : List Char :=
  strfDate p ++ ' ' :: pad2 p.hour ++ ':' :: pad2 p.minute ++ ':' :: pad2 p.second

/-! ### The manual fallback of `_normalize_date` (mem1.py:655-671):
`re.search` of `(\d{1,2})[/\-](\d{1,2})[/\-](\d{4})`, and of
`(\d{1,2}):(\d{2})(?::(\d{2}))?`, embedded with Python's leftmost-position,
greedy-with-backtracking semantics. -/

/-- Consume exactly `n` digit characters. -/
def takeDigitsN : ℕ → List Char → Option (List Char × List Char)
  | 0, l => some ([], l)
  | n + 1, c :: cs =>
    if c.isDigit then (takeDigitsN n cs).map (fun p => (c :: p.1, p.2))
    else none
  | _ + 1, [] => none

def isSep (c : Char) : Bool := c = '/' || c = '-'

/-- Match `[/\-](\d{4})` and return the year capture. -/
def matchSepYear : List Char → Option (List Char)
  | s :: rest => if isSep s then (takeDigitsN 4 rest).map Prod.fst else none
  | [] => none

/-- Match `[/\-](\d{1,2})[/\-](\d{4})`, group 1 greedy with backtracking. -/
def matchSepG2Year : List Char → Option (List Char × List Char)
  | s :: rest =>
    if isSep s then
      (do let (g2, r) ← takeDigitsN 2 rest
          let y ← matchSepYear r
          pure (g2, y)) <|>
      (do let (g2, r) ← takeDigitsN 1 rest
          let y ← matchSepYear r
          pure (g2, y))
    else none
  | [] => none

/-- Match the date pattern anchored at the head of the list; captures
(day, month, year). -/
def matchDMYat (l : List Char) : Option (List Char × List Char × List Char) :=
  (do let (g1, r) ← takeDigitsN 2 l
      let (g2, y) ← matchSepG2Year r
      pure (g1, g2, y)) <|>
  (do let (g1, r) ← takeDigitsN 1 l
      let (g2, y) ← matchSepG2Year r
      pure (g1, g2, y))

/-- Model of `re.search` of the date pattern: leftmost matching position. -/
def searchDMY : List Char → Option (List Char × List Char × List Char)
  | [] => none
  | c :: cs => matchDMYat (c :: cs) <|> searchDMY cs

/-- Match the time pattern anchored at the head; captures
(hour, minute, optional second). -/
def matchTimeAt (l : List Char) : Option (List Char × List Char × Option (List Char)) :=
  (do let (g1, r) ← takeDigitsN 2 l
      matchColonRest g1 r) <|>
  (do let (g1, r) ← takeDigitsN 1 l
      matchColonRest g1 r)
where
  matchColonRest (g1 : List Char) :
      List Char → Option (List Char × List Char × Option (List Char))
    | ':' :: rest => do
      let (g2, r2) ← takeDigitsN 2 rest
      match r2 with
      | ':' :: r3 =>
        match takeDigitsN 2 r3 with
        | some (g3, _) => pure (g1, g2, some g3)
        | none => pure (g1, g2, none)
      | _ => pure (g1, g2, none)
    | _ => none

/-- Model of `re.search` of the time pattern. -/
def searchTime : List Char → Option (List Char × List Char × Option (List Char))
  | [] => none
  | c :: cs => matchTimeAt (c :: cs) <|> searchTime cs

/-- Python `str.zfill(2)` for the 1-to-2-character regex captures. -/
def zfill2 (l : List Char) : List Char := if l.length ≥ 2 then l else '0' :: l

/-- Body of `_normalize_date` (mem1.py:640) on a non-empty string: try the
(modelled) dateutil parse, rendering date-only when the parsed time-of-day is
all zero; on failure run the manual `D/M/Y (+ H:M[:S])` regex fallback; if
that fails too, return the input unchanged. -/
def normalizeDateCore (s : String) : String :=
  match dateutilParse s.data with
  | some p =>
    if p.hour ≠ 0 || p.minute ≠ 0 || p.second ≠ 0 then ⟨strfDateTime p⟩
    else ⟨strfDate p⟩
  | none =>
    match searchDMY s.data with
    | some (day, month, year) =>
      match searchTime s.data with
      | some (h, mi, sec) =>
        ⟨year ++ '-' :: zfill2 month ++ '-' :: zfill2 day ++
          ' ' :: zfill2 h ++ ':' :: mi ++ ':' :: sec.getD ['0', '0']⟩
      | none => ⟨year ++ '-' :: zfill2 month ++ '-' :: zfill2 day⟩
    | none => s

/-- Embedding of `_normalize_date`: falsy input returns `None`. -/
def normalize_date (s : String) : Option String :=
  if s = "" then none else some (normalizeDateCore s)


/-! ## The canonical schema (`_get_standard_schema`, mem1.py:29) -/

structure Address where
  street : Option String := none
  house_no : Option String := none
  colony : Option String := none
  village_town : Option String := none
  pincode : Option String := none
  police_station : Option String := none
  district : Option String := none
  state : Option String := none
deriving DecidableEq

structure ComplainantDetails where
  name : Option String := none
  mobile : Option String := none
  email : Option String := none
  address : Address := {}
deriving DecidableEq

structure CrimeDetails where
  complaint_type : Option String := none
  category : Option String := none
  sub_category : Option String := none
  description : Option String := none
deriving DecidableEq

structure FinancialDetails where
  total_fraud_amount : ℚ := 0
  currency : String := "INR"
deriving DecidableEq

/-- One extracted transaction (`_extract_transactions_from_pdf`); the `bank`
and `transaction_id` keys are optional in the source dicts. -/
structure Transaction where
  bank : Option String := none
  transaction_id : Option String := none
  account_number : Option String := none
  amount : ℚ := 0
  transaction_date : Option String := none
  status : String := "reported"
deriving DecidableEq

/-- One extracted bank action (`_extract_actions_from_pdf`). -/
structure ActionTaken where
  action_type : String
  beneficiary_bank : Option String := none
  bank : Option String := none
  account_number : Option String := none
  amount : Option ℚ := none
  status : String := ""
  remarks : Option String := none
deriving DecidableEq

structure Metadata where
  processing_timestamp : Option String := none
  data_quality_score : ℚ := 0
  validation_status : Option String := none
  is_duplicate : Bool := false
  validation_warnings : List String := []
deriving DecidableEq

/-- The canonical complaint record; default field values are exactly the
`_get_standard_schema` defaults. -/
structure Record where
  complaint_id : Option String := none
  acknowledgement_number : Option String := none
  date_time : Option String := none
  incident_datetime : Option String := none
  complaint_datetime : Option String := none
  complainant_name : Option String := none
  district : Option String := none
  crime_type : Option String := none
  platform : Option String := none
  amount_lost : ℚ := 0
  status : String := "Under Process"
  complainant_details : ComplainantDetails := {}
  crime_details : CrimeDetails := {}
  financial_details : FinancialDetails := {}
  transactions : List Transaction := []
  actions_taken : List ActionTaken := []
  source_file : Option String := none
  metadata : Metadata := {}
deriving DecidableEq

/-- The fresh schema instance. -/
def standard_schema : Record := {}

/-- Python truthiness of an optional string (`None` and `""` are falsy). -/
def optTruthy : Option String → Bool
  | none => false
  | some s => s ≠ ""

/-- Apply `f` when the optional string is truthy (the ubiquitous
`if data.get(k): data[k] = f(data[k])` idiom). -/
def mapTruthy (f : String → String) (v : Option String) : Option String :=
  match v with
  | some s => if s ≠ "" then some (f s) else some s
  | none => none

/-! ## `_clean_and_normalize` (mem1.py:577) -/

def clean_and_normalize (r : Record) : Record :=
  let r := { r with
    incident_datetime := mapTruthy normalizeDateCore r.incident_datetime,
    complaint_datetime := mapTruthy normalizeDateCore r.complaint_datetime }
  let cd := r.complainant_details
  let cd := { cd with
    name := mapTruthy clean_text cd.name,
    mobile := mapTruthy normalize_mobile cd.mobile,
    email := mapTruthy normalize_email cd.email }
  let ad := cd.address
  let ad : Address := {
    street := mapTruthy clean_text ad.street,
    house_no := mapTruthy clean_text ad.house_no,
    colony := mapTruthy clean_text ad.colony,
    village_town := mapTruthy clean_text ad.village_town,
    pincode := mapTruthy clean_text ad.pincode,
    police_station := mapTruthy clean_text ad.police_station,
    district := mapTruthy clean_text ad.district,
    state := mapTruthy clean_text ad.state }
  let cr := r.crime_details
  let cr := { cr with
    category := mapTruthy normalize_category cr.category,
    sub_category := mapTruthy normalize_category cr.sub_category }
  { r with
    complainant_details := { cd with address := ad },
    crime_details := cr,
    platform := mapTruthy normalize_platform r.platform,
    status := if r.status ≠ "" then normalize_status r.status else r.status,
    transactions := r.transactions.map fun t =>
      { t with transaction_date := mapTruthy normalizeDateCore t.transaction_date } }

/-! ## `_flatten_key_fields` (mem1.py:549) -/

def flatten_key_fields (r : Record) : Record :=
  let r := if optTruthy r.incident_datetime then { r with date_time := r.incident_datetime }
    else if optTruthy r.complaint_datetime then { r with date_time := r.complaint_datetime }
    else r
  let r := if optTruthy r.complainant_details.name then
      { r with complainant_name := r.complainant_details.name } else r
  let r := if optTruthy r.complainant_details.address.district then
      { r with district := r.complainant_details.address.district } else r
  let r := if optTruthy r.crime_details.sub_category then
      { r with crime_type := r.crime_details.sub_category }
    else if optTruthy r.crime_details.category then
      { r with crime_type := r.crime_details.category }
    else r
  if r.financial_details.total_fraud_amount ≠ 0 then
    { r with amount_lost := r.financial_details.total_fraud_amount }
  else r

/-! ## `_validate_data` (mem1.py:787) -/

def sentinel_values : List String := ["none", "unknown", "0", "0.0"]

/-- The per-field check
`value and str(value).strip() and str(value).lower() not in [...]` for an
optional string field (`str` of a string is itself; `None` is falsy). -/
def strFieldFilled : Option String → Bool
  | none => false
  | some s => s ≠ "" && pyStrip s ≠ "" && !(sentinel_values.contains (pyLower s))

/-- The same check for the always-a-string `status` field. -/
def statusFilled (s : String) : Bool :=
  s ≠ "" && pyStrip s ≠ "" && !(sentinel_values.contains (pyLower s))

/-- The same check for the float `amount_lost` field: a float is truthy iff
nonzero, `str()` of a float is never empty after stripping, and it lies in
`['none', 'unknown', '0', '0.0']` only for `str(0.0) = '0.0'` — so the whole
condition is exactly `amount ≠ 0`. -/
def amountFilled (q : ℚ) : Bool := q ≠ 0

/-- The `critical_fields` table (mem1.py:794): the filled flag of each field
paired with its weight. -/
def critical_fields (r : Record) : List (Bool × ℚ) :=
  [(strFieldFilled r.complaint_id, 2),
   (strFieldFilled r.complainant_name, 2),
   (strFieldFilled r.complainant_details.mobile, 3/2),
   (strFieldFilled r.district, 1),
   (strFieldFilled r.date_time, 3/2),
   (strFieldFilled r.crime_type, 3/2),
   (amountFilled r.amount_lost, 2),
   (statusFilled r.status, 1)]

/-- Source variable `total_fields`: the loop accumulates every weight. -/
def sumWeights : List (Bool × ℚ) → ℚ
  | [] => 0
  | (_, w) :: rest => w + sumWeights rest

/-- Source variable `filled_fields`: the loop accumulates the weights of the fields that
pass the check. -/
def sumFilled : List (Bool × ℚ) → ℚ
  | [] => 0
  | (b, w) :: rest => (if b then w else 0) + sumFilled rest

/-- Round-half-to-even to an integer (the rounding mode of Python's
`round`). -/
def roundHalfEven (x : ℚ) : ℤ :=
  if x - ⌊x⌋ < 1/2 then ⌊x⌋
  else if x - ⌊x⌋ > 1/2 then ⌊x⌋ + 1
  else if (⌊x⌋ : ℤ) % 2 = 0 then ⌊x⌋ else ⌊x⌋ + 1

/-- Python `round(x, 2)`. -/
def round2 (x : ℚ) : ℚ := (roundHalfEven (x * 100) : ℚ) / 100

/-- The raw quality score computed by `_validate_data`. -/
def quality_score (r : Record) : ℚ :=
  if sumWeights (critical_fields r) > 0 then
    sumFilled (critical_fields r) / sumWeights (critical_fields r) * 100
  else 0

/-- Warnings appended by `_validate_data` (mem1.py:820-838). -/
def validation_warnings (r : Record) : List String :=
  (if optTruthy r.complainant_details.mobile
      && (r.complainant_details.mobile.getD "").length ≠ 10 then
    ["Mobile number is not 10 digits"] else []) ++
  (if optTruthy r.complainant_details.email
      && !(pyContains (r.complainant_details.email.getD "") "@") then
    ["Invalid email format"] else []) ++
  (if r.amount_lost ≤ 0 then ["Amount lost is zero or negative"] else [])

/-- Embedding of `_validate_data`: store the rounded score, derive the validation status
from the **unrounded** score, and record structural warnings. -/
def validate_data (r : Record) : Record :=
  { r with metadata := { r.metadata with
      data_quality_score := round2 (quality_score r),
      validation_status := some (if quality_score r ≥ 60 then "valid" else "incomplete"),
      validation_warnings := validation_warnings r } }


/-! ## MD5 (`hashlib.md5(...).hexdigest()`)

Bit-faithful implementation over `ℕ` with explicit reduction mod `2^32`,
validated against `hashlib` reference digests (see the examples following
`md5Hex`). -/

/-- UTF-8 encoding of one scalar value (Python `str.encode()`). -/
def utf8Char (c : Char) : List ℕ :=
  let n := c.toNat
  if n < 0x80 then [n]
  else if n < 0x800 then [0xC0 + n / 64, 0x80 + n % 64]
  else if n < 0x10000 then
    [0xE0 + n / 4096, 0x80 + n / 64 % 64, 0x80 + n % 64]
  else
    [0xF0 + n / 262144, 0x80 + n / 4096 % 64, 0x80 + n / 64 % 64, 0x80 + n % 64]

def utf8Bytes (s : String) : List ℕ := s.data.flatMap utf8Char

def md5K : List ℕ :=
  [0xd76aa478, 0xe8c7b756, 0x242070db, 0xc1bdceee,
   0xf57c0faf, 0x4787c62a, 0xa8304613, 0xfd469501,
   0x698098d8, 0x8b44f7af, 0xffff5bb1, 0x895cd7be,
   0x6b901122, 0xfd987193, 0xa679438e, 0x49b40821,
   0xf61e2562, 0xc040b340, 0x265e5a51, 0xe9b6c7aa,
   0xd62f105d, 0x02441453, 0xd8a1e681, 0xe7d3fbc8,
   0x21e1cde6, 0xc33707d6, 0xf4d50d87, 0x455a14ed,
   0xa9e3e905, 0xfcefa3f8, 0x676f02d9, 0x8d2a4c8a,
   0xfffa3942, 0x8771f681, 0x6d9d6122, 0xfde5380c,
   0xa4beea44, 0x4bdecfa9, 0xf6bb4b60, 0xbebfbc70,
   0x289b7ec6, 0xeaa127fa, 0xd4ef3085, 0x04881d05,
   0xd9d4d039, 0xe6db99e5, 0x1fa27cf8, 0xc4ac5665,
   0xf4292244, 0x432aff97, 0xab9423a7, 0xfc93a039,
   0x655b59c3, 0x8f0ccc92, 0xffeff47d, 0x85845dd1,
   0x6fa87e4f, 0xfe2ce6e0, 0xa3014314, 0x4e0811a1,
   0xf7537e82, 0xbd3af235, 0x2ad7d2bb, 0xeb86d391]

def md5S : List ℕ :=
  [7, 12, 17, 22, 7, 12, 17, 22, 7, 12, 17, 22, 7, 12, 17, 22,
   5, 9, 14, 20, 5, 9, 14, 20, 5, 9, 14, 20, 5, 9, 14, 20,
   4, 11, 16, 23, 4, 11, 16, 23, 4, 11, 16, 23, 4, 11, 16, 23,
   6, 10, 15, 21, 6, 10, 15, 21, 6, 10, 15, 21, 6, 10, 15, 21]

def mask32 : ℕ := 4294967295

def add32 (a b : ℕ) : ℕ := (a + b) % 4294967296

def not32 (a : ℕ) : ℕ := mask32 - a

def rotl32 (x n : ℕ) : ℕ :=
  ((x <<< n) ||| (x >>> (32 - n))) &&& mask32

/-- Little-endian 64-bit encoding of the bit length. -/
def le64 (n : ℕ) : List ℕ :=
  [n % 256, n / 256 % 256, n / 65536 % 256, n / 16777216 % 256,
   n / 4294967296 % 256, n / 1099511627776 % 256,
   n / 281474976710656 % 256, n / 72057594037927936 % 256]

/-- MD5 padding: append `0x80`, zero-pad to 56 mod 64, append the bit length
little-endian. -/
def md5Pad (msg : List ℕ) : List ℕ :=
  let padLen := (55 + 64 - msg.length % 64) % 64 + 1
  msg ++ 0x80 :: List.replicate (padLen - 1) 0 ++ le64 (msg.length * 8)

/-- Decode one 64-byte chunk into 16 little-endian 32-bit words. -/
def chunkWords (chunk : List ℕ) : List ℕ :=
  (List.range 16).map fun j =>
    (chunk.getD (4 * j) 0) + (chunk.getD (4 * j + 1) 0) * 256 +
    (chunk.getD (4 * j + 2) 0) * 65536 + (chunk.getD (4 * j + 3) 0) * 16777216

/-- One MD5 operation (step `i` of 64). -/
def md5Step (M : List ℕ) (st : ℕ × ℕ × ℕ × ℕ) (i : ℕ) : ℕ × ℕ × ℕ × ℕ :=
  let (A, B, C, D) := st
  let (F, g) :=
    if i < 16 then ((B &&& C) ||| (not32 B &&& D), i)
    else if i < 32 then ((D &&& B) ||| (not32 D &&& C), (5 * i + 1) % 16)
    else if i < 48 then (B ^^^ C ^^^ D, (3 * i + 5) % 16)
    else (C ^^^ (B ||| not32 D), (7 * i) % 16)
  let F' := add32 (add32 (add32 F A) (md5K.getD i 0)) (M.getD g 0)
  (D, add32 B (rotl32 F' (md5S.getD i 0)), B, C)

/-- Process one chunk against the running state. -/
def md5Chunk (st : ℕ × ℕ × ℕ × ℕ) (chunk : List ℕ) : ℕ × ℕ × ℕ × ℕ :=
  let M := chunkWords chunk
  let (A, B, C, D) := (List.range 64).foldl (md5Step M) st
  let (a, b, c, d) := st
  (add32 a A, add32 b B, add32 c C, add32 d D)

def splitChunks : List ℕ → List (List ℕ)
  | [] => []
  | c :: rest => (c :: rest).take 64 :: splitChunks ((c :: rest).drop 64)
termination_by l => l.length
decreasing_by simp [List.length_drop]; omega

def hexChar (n : ℕ) : Char := if n < 10 then Nat.digitChar n else Char.ofNat (87 + n)

/-- Little-endian lowercase hex of one 32-bit word. -/
def hexWordLE (w : ℕ) : List Char :=
  [w / 16 % 16, w % 16, w / 4096 % 16, w / 256 % 16,
   w / 1048576 % 16, w / 65536 % 16, w / 268435456 % 16, w / 16777216 % 16].map hexChar

/-- Model of `hashlib.md5(bytes).hexdigest()`. -/
def md5Hex (msg : List ℕ) : String :=
  let init : ℕ × ℕ × ℕ × ℕ := (0x67452301, 0xefcdab89, 0x98badcfe, 0x10325476)
  let (a, b, c, d) := (splitChunks (md5Pad msg)).foldl md5Chunk init
  ⟨hexWordLE a ++ hexWordLE b ++ hexWordLE c ++ hexWordLE d⟩

/-! ## The duplicate registry (`_is_duplicate` / `_register_complaint`,
mem1.py:842-875) -/

/-- Decimal digits of the remainder `r/d` (long division), stopping when the
remainder vanishes; fuel bounds the expansion (ample for the terminating
decimal expansions that Python float literals produce). -/
def fracDigits : ℕ → ℕ → ℕ → List Char
  | 0, _, _ => []
  | _ + 1, 0, _ => []
  | fuel + 1, r, d => Nat.digitChar (r * 10 / d) :: fracDigits fuel (r * 10 % d) d

/-- Python `str()` of the float `amount_lost` value, modelled on exact
decimals: `str(0.0) = "0.0"`, `str(25000.0) = "25000.0"`,
`str(123.45) = "123.45"`. -/
def floatStr (q : ℚ) : String :=
  let sign := if q.num < 0 then "-" else ""
  let n := q.num.natAbs
  sign ++ toString (n / q.den) ++ "." ++
    (if n % q.den = 0 then "0" else ⟨fracDigits 40 (n % q.den) q.den⟩)

/-- Python `f"{v}"` of a schema value that is either a string or `None`. -/
def pyStrOpt : Option String → String
  | none => "None"
  | some s => s

/-- The fingerprint pre-image
`f"{name}_{mobile}_{date_time}_{amount_lost}"` (mem1.py:850, 869). -/
def hash_string (r : Record) : String :=
  pyStrOpt r.complainant_name ++ "_" ++ pyStrOpt r.complainant_details.mobile
    ++ "_" ++ pyStrOpt r.date_time ++ "_" ++ floatStr r.amount_lost

/-- The fingerprint `hashlib.md5(hash_string.encode()).hexdigest()`. -/
def complaint_hash (r : Record) : String := md5Hex (utf8Bytes (hash_string r))

/-- Embedding of `_is_duplicate`: the identifier (when truthy) or the content fingerprint
is already a member of `processed_complaints`. -/
def is_duplicate (S : Finset String) (r : Record) : Bool :=
  (match r.complaint_id with
   | some cid => cid ≠ "" && decide (cid ∈ S)
   | none => false) ||
  decide (complaint_hash r ∈ S)

/-- Embedding of `_register_complaint`: add the truthy identifier and the fingerprint. -/
def register_complaint (S : Finset String) (r : Record) : Finset String :=
  let S1 := match r.complaint_id with
    | some cid => if cid ≠ "" then insert cid S else S
    | none => S
  insert (complaint_hash r) S1

/-- Step 6 of `process_file` (mem1.py:124-130): flag and, on first
occurrence, register. -/
def dedup_step (S : Finset String) (r : Record) : Record × Finset String :=
  if is_duplicate S r then
    ({ r with metadata := { r.metadata with is_duplicate := true } }, S)
  else
    let r' := { r with metadata := { r.metadata with is_duplicate := false } }
    (r', register_complaint S r')

/-! ## `_extract_platform` (mem1.py:308) -/

def upi_platforms : List String :=
  ["PhonePe", "Google Pay", "GPay", "Paytm", "Amazon Pay", "BHIM"]

/-- The fields of the parsed-PDF dict that `_extract_platform` consults. -/
structure PdfData where
  sub_category : Option String := none
  transactions : List Transaction := []
  actions_taken : List ActionTaken := []
deriving DecidableEq

/-- The action-scanning tail of `_extract_platform`: first action whose
`beneficiary_bank` is truthy, else `"Unknown"`. -/
def platformFromActions (actions : List ActionTaken) : String :=
  match actions.find? (fun a => a.beneficiary_bank.getD "" ≠ "") with
  | some a => a.beneficiary_bank.getD ""
  | none => "Unknown"

/-- Embedding of `_extract_platform`: sub-category keywords first (specific UPI app found
anywhere in the text, else generic "UPI"; cards; banking), then the first
transaction's `bank` key, then the first action with a truthy
`beneficiary_bank`, else `"Unknown"`. -/
def extract_platform (d : PdfData) (text : String) : String :=
  let sub := d.sub_category.getD ""
  if pyContains sub "UPI" then
    match upi_platforms.find? (fun p => searchCI p text) with
    | some p => p
    | none => "UPI"
  else if pyContains sub "Card" then "Card"
  else if pyContains sub "Net Banking" || pyContains sub "Banking" then "Net Banking"
  else
    match d.transactions with
    | t :: _ =>
      match t.bank with
      | some b => b
      | none => platformFromActions d.actions_taken
    | [] => platformFromActions d.actions_taken


/-! ## `_generate_summary` (mem1.py:877), `process_file` (mem1.py:88),
`batch_process` (mem1.py:905)

`process_file` performs file I/O (pandas, PyPDF2); the loader + extractor
composition for one input file is therefore part of the *input* of the
model: an `InputFile` carries the file name, its extension, whether the path
exists, and the outcome (`Except`) that loading and extracting the file
produces.  Everything from `_clean_and_normalize` on is the embedded code
above.  A Python exception is a (type-name, message) pair. -/

structure Summary where
  complaint_id : Option String
  complainant_name : Option String
  district : Option String
  crime_type : Option String
  platform : Option String
  amount_lost : ℚ
  status : String
  date_time : Option String
  num_transactions : ℕ
  num_actions_taken : ℕ
  data_quality_score : ℚ
  validation_status : String
  is_duplicate : Bool
  source_file : Option String
deriving DecidableEq

def generate_summary (r : Record) : Summary :=
  { complaint_id := r.complaint_id,
    complainant_name := r.complainant_name,
    district := r.district,
    crime_type := r.crime_type,
    platform := r.platform,
    amount_lost := r.amount_lost,
    status := r.status,
    date_time := r.date_time,
    num_transactions := r.transactions.length,
    num_actions_taken := r.actions_taken.length,
    data_quality_score := r.metadata.data_quality_score,
    validation_status := r.metadata.validation_status.getD "unknown",
    is_duplicate := r.metadata.is_duplicate,
    source_file := r.source_file }

structure PyExn where
  name : String
  msg : String
deriving DecidableEq

structure InputFile where
  file_name : String
  suffix : String
  file_exists : Bool
  load : Except PyExn Record

/-- The per-file result dict: `{status, data, summary}` on success,
`{status, error, error_type}` on error. -/
structure ResultDict where
  status : String
  data : Option Record := none
  summary : Option Summary := none
  error : Option String := none
  error_type : Option String := none
deriving DecidableEq

def supported_extensions : List String := [".csv", ".xlsx", ".xls", ".pdf"]

/-- The body of `process_file`'s `try` block: existence check, extension
dispatch (raising `ValueError` on an unknown extension), load + extract
(the `InputFile`'s outcome), then the embedded clean / flatten / validate /
dedup stages.  `now` is the `datetime.now().isoformat()` value. -/
def processBody (S : Finset String) (f : InputFile) (now : String) :
    Except PyExn (Record × Finset String) :=
  if !f.file_exists then
    .error ⟨"FileNotFoundError", "File not found: " ++ f.file_name⟩
  else if !(supported_extensions.contains (pyLower f.suffix)) then
    .error ⟨"ValueError", "Unsupported file format: " ++ pyLower f.suffix⟩
  else
    match f.load with
    | .error e => .error e
    | .ok raw =>
      let validated := validate_data (flatten_key_fields (clean_and_normalize raw))
      let (r', S') := dedup_step S validated
      .ok ({ r' with
              metadata := { r'.metadata with processing_timestamp := some now },
              source_file := some f.file_name }, S')

/-- Embedding of `process_file`: the `try`/`except Exception` wrapper turning any raised
exception into the error-shaped result dict. -/
def process_file (S : Finset String) (f : InputFile) (now : String) :
    ResultDict × Finset String :=
  match processBody S f now with
  | .ok (r, S') =>
    ({ status := "success", data := some r, summary := some (generate_summary r) }, S')
  | .error e =>
    ({ status := "error", error := some e.msg, error_type := some e.name }, S)

/-- The result-collection loop of `batch_process`, threading the registry. -/
def batch_results (S : Finset String) (now : String) :
    List InputFile → List ResultDict × Finset String
  | [] => ([], S)
  | f :: fs =>
    let (r, S') := process_file S f now
    let (rs, S'') := batch_results S' now fs
    (r :: rs, S'')

/-- One entry of the batch summary's `results` list:
`r['summary'] if r['status'] == 'success' else {'error': r.get('error')}`. -/
inductive BatchEntry
  | summ (s : Option Summary)
  | err (msg : Option String)
deriving DecidableEq

def BatchEntry.isErr : BatchEntry → Bool
  | .summ _ => false
  | .err _ => true

structure BatchSummary where
  total_files : ℕ
  successful : ℕ
  failed : ℕ
  duplicates : ℕ
  results : List BatchEntry
deriving DecidableEq

/-- Embedding of `batch_process` (without its caller-owned file writes): process each
file in order, then aggregate. -/
def batch_process (S : Finset String) (files : List InputFile) (now : String) :
    BatchSummary :=
  let results := (batch_results S now files).1
  { total_files := files.length,
    successful := (results.filter (fun r => r.status == "success")).length,
    failed := (results.filter (fun r => r.status == "error")).length,
    duplicates := (results.filter (fun r =>
      r.status == "success" &&
        (r.data.map (fun d => d.metadata.is_duplicate)).getD false)).length,
    results := results.map (fun r =>
      if r.status == "success" then .summ r.summary else .err r.error) }

/-! ## Claim theorems -/

/-! ### C8 — `_clean_text` output character set -/

/-- The character set named by the spec sentence: letters, digits, space,
hyphen, period, comma, `@`, parentheses — written from the spec's words, to
be compared with `cleanKeepChar` taken from the source. -/
def claimAllowedChar (c : Char) : Bool :=
  c.isAlphanum || c = ' ' || c = '-' || c = '.' || c = ',' || c = '@' ||
  c = '(' || c = ')'

lemma mem_collapseWsAux {c : Char} :
    ∀ {b : Bool} {l : List Char}, c ∈ collapseWsAux b l →
      c = ' ' ∨ (c ∈ l ∧ pyIsSpace c = false) := by
  intro b l
  induction l generalizing b with
  | nil => simp [collapseWsAux]
  | cons a l ih =>
    intro h
    by_cases ha : pyIsSpace a
    · by_cases hb : b
      · simp only [collapseWsAux, ha, hb, if_true] at h
        rcases ih h with h' | h'
        · exact Or.inl h'
        · exact Or.inr ⟨List.mem_cons_of_mem _ h'.1, h'.2⟩
      · simp only [collapseWsAux, ha, hb, if_true, if_false, Bool.false_eq_true,
          List.mem_cons] at h
        rcases h with h | h
        · exact Or.inl h
        · rcases ih h with h' | h'
          · exact Or.inl h'
          · exact Or.inr ⟨List.mem_cons_of_mem _ h'.1, h'.2⟩
    · simp only [collapseWsAux, ha, if_false, Bool.false_eq_true, List.mem_cons] at h
      rcases h with h | h
      · subst h
        exact Or.inr ⟨List.mem_cons_self _ _, by simpa using ha⟩
      · rcases ih h with h' | h'
        · exact Or.inl h'
        · exact Or.inr ⟨List.mem_cons_of_mem _ h'.1, h'.2⟩

lemma mem_pyStripList {c : Char} {l : List Char} (h : c ∈ pyStripList l) :
    c ∈ l := by
  unfold pyStripList at h
  rw [List.mem_reverse] at h
  have h1 := (List.dropWhile_sublist pyIsSpace).mem h
  rw [List.mem_reverse] at h1
  exact (List.dropWhile_sublist pyIsSpace).mem h1

lemma head?_dropWhile_false {p : Char → Bool} :
    ∀ {l : List Char} {c : Char}, (l.dropWhile p).head? = some c → p c = false := by
  intro l
  induction l with
  | nil => simp
  | cons a l ih =>
    intro c h
    by_cases ha : p a
    · rw [List.dropWhile_cons_of_pos ha] at h
      exact ih h
    · rw [List.dropWhile_cons_of_neg ha] at h
      simp only [List.head?_cons, Option.some.injEq] at h
      subst h
      simpa using ha

lemma dropWhile_eq_self_of_head {p : Char → Bool} {l : List Char}
    (h : ∀ c, l.head? = some c → p c = false) : l.dropWhile p = l := by
  cases l with
  | nil => rfl
  | cons a l => rw [List.dropWhile_cons_of_neg (by simp [h a rfl])]

lemma getLast?_dropWhile_of_ne_nil {p : Char → Bool} :
    ∀ {l : List Char}, l.dropWhile p ≠ [] →
      (l.dropWhile p).getLast? = l.getLast? := by
  intro l
  induction l with
  | nil => simp
  | cons a l ih =>
    intro hne
    by_cases ha : p a
    · rw [List.dropWhile_cons_of_pos ha] at hne ⊢
      have hl : l ≠ [] := by
        intro h
        exact hne (by simp [h])
      rw [ih hne, List.getLast?_cons]
      cases hl' : l.getLast? with
      | none => exact absurd (List.getLast?_eq_none_iff.mp hl') hl
      | some x => rfl
    · rw [List.dropWhile_cons_of_neg ha]

lemma head?_pyStripList_false {l : List Char} {c : Char}
    (h : (pyStripList l).head? = some c) : pyIsSpace c = false := by
  unfold pyStripList at h
  rw [List.head?_reverse] at h
  set a := l.dropWhile pyIsSpace with ha
  by_cases hnil : a.reverse.dropWhile pyIsSpace = []
  · rw [hnil] at h
    simp at h
  · rw [getLast?_dropWhile_of_ne_nil hnil, List.getLast?_reverse] at h
    exact head?_dropWhile_false (p := pyIsSpace) (by rw [← ha]; exact h)

lemma getLast?_pyStripList_false {l : List Char} {c : Char}
    (h : (pyStripList l).getLast? = some c) : pyIsSpace c = false := by
  unfold pyStripList at h
  rw [List.getLast?_reverse] at h
  exact head?_dropWhile_false h

lemma pyStripList_idem (l : List Char) :
    pyStripList (pyStripList l) = pyStripList l := by
  conv_lhs => rw [pyStripList]
  rw [dropWhile_eq_self_of_head (fun c h => head?_pyStripList_false h)]
  rw [dropWhile_eq_self_of_head, List.reverse_reverse]
  intro c h
  rw [List.head?_reverse] at h
  exact getLast?_pyStripList_false h

/-- C8, counterexample: Python `\w` keeps the underscore, so `_clean_text`
preserves `"a_b"` although `_` is outside the claim's allowed character
set. -/
theorem clean_text_underscore_counterexample :
    clean_text "a_b" = "a_b" ∧ '_' ∈ (clean_text "a_b").data ∧
      claimAllowedChar '_' = false := by
  refine ⟨by decide, by decide, by decide⟩

/-- C8 (amended): `_clean_text` output contains only characters of the
claim's allowed set **plus underscore** (Python `\w` includes `_`), and is
whitespace-stripped at both ends (re-stripping is the identity).  Whitespace
runs are collapsed before removal, so the only whitespace ever emitted is a
single space character. -/
theorem clean_text_charset_amended (s : String) :
    (clean_text s).data.all (fun c => claimAllowedChar c || c = '_') = true ∧
      pyStripList (clean_text s).data = (clean_text s).data := by
  constructor
  · rw [List.all_eq_true]
    intro c hc
    by_cases hs : s = ""
    · simp [clean_text, hs] at hc
    · simp only [clean_text, hs, if_false, Bool.false_eq_true] at hc
      have h1 := mem_pyStripList hc
      rw [List.mem_filter] at h1
      obtain ⟨h2, hkeep⟩ := h1
      rcases mem_collapseWsAux h2 with hsp | ⟨_, hns⟩
      · subst hsp
        decide
      · simp only [cleanKeepChar, hns, Bool.or_false, Bool.false_or] at hkeep
        simp only [Bool.or_eq_true, decide_eq_true_eq] at hkeep
        simp only [claimAllowedChar, Bool.or_eq_true, decide_eq_true_eq]
        tauto
  · by_cases hs : s = ""
    · simp [clean_text, hs, pyStripList, List.dropWhile]
    · simp only [clean_text, hs, if_false, Bool.false_eq_true]
      exact pyStripList_idem _

/-! ### C4 — `_normalize_mobile` keeps the last 10 digits -/

/-- C4: whenever the input contains at least 10 digit characters,
`_normalize_mobile` returns exactly the last 10 of them, every non-digit
stripped. -/
theorem normalize_mobile_last_ten (s : String)
    (h : 10 ≤ (s.data.filter Char.isDigit).length) :
    normalize_mobile s
      = ⟨(s.data.filter Char.isDigit).drop
          ((s.data.filter Char.isDigit).length - 10)⟩ := by
  have hs : s ≠ "" := by
    intro he
    subst he
    simp at h
  unfold normalize_mobile
  rw [if_neg hs]
  by_cases hgt : (s.data.filter Char.isDigit).length > 10
  · rw [if_pos hgt]
  · rw [if_neg hgt]
    have h10 : (s.data.filter Char.isDigit).length = 10 :=
      le_antisymm (not_lt.mp hgt) h
    rw [h10]
    simp

/-- C4, witness: a 12-digit input with country code and separators. -/
theorem normalize_mobile_last_ten_witness :
    10 ≤ (("+91 98765-43210".data.filter Char.isDigit).length) ∧
      normalize_mobile "+91 98765-43210"
        = ⟨("+91 98765-43210".data.filter Char.isDigit).drop
            (("+91 98765-43210".data.filter Char.isDigit).length - 10)⟩ :=
  ⟨by decide, normalize_mobile_last_ten _ (by decide)⟩

/-! ### C2 / C3 — quality score and validation status -/

lemma sumWeights_critical (r : Record) : sumWeights (critical_fields r) = 25 / 2 := by
  simp [critical_fields, sumWeights]
  norm_num

lemma critical_weights_nonneg (r : Record) :
    ∀ p ∈ critical_fields r, (0 : ℚ) ≤ p.2 := by
  intro p hp
  simp only [critical_fields, List.mem_cons, List.not_mem_nil, or_false] at hp
  rcases hp with rfl | rfl | rfl | rfl | rfl | rfl | rfl | rfl <;> norm_num

lemma critical_weights_half_int (r : Record) :
    ∀ p ∈ critical_fields r, ∃ m : ℤ, p.2 * 2 = (m : ℚ) := by
  intro p hp
  simp only [critical_fields, List.mem_cons, List.not_mem_nil, or_false] at hp
  rcases hp with rfl | rfl | rfl | rfl | rfl | rfl | rfl | rfl
  · exact ⟨4, by norm_num⟩
  · exact ⟨4, by norm_num⟩
  · exact ⟨3, by norm_num⟩
  · exact ⟨2, by norm_num⟩
  · exact ⟨3, by norm_num⟩
  · exact ⟨3, by norm_num⟩
  · exact ⟨4, by norm_num⟩
  · exact ⟨2, by norm_num⟩

lemma sumFilled_nonneg :
    ∀ {l : List (Bool × ℚ)}, (∀ p ∈ l, (0 : ℚ) ≤ p.2) → 0 ≤ sumFilled l := by
  intro l
  induction l with
  | nil => intro _; simp [sumFilled]
  | cons p rest ih =>
    intro h
    obtain ⟨b, w⟩ := p
    have hw : (0 : ℚ) ≤ w := h _ (List.mem_cons_self _ _)
    have hr := ih fun q hq => h q (List.mem_cons_of_mem _ hq)
    simp only [sumFilled]
    have : (0 : ℚ) ≤ if b then w else 0 := by
      split <;> simp [hw]
    linarith

lemma sumFilled_le_sumWeights :
    ∀ {l : List (Bool × ℚ)}, (∀ p ∈ l, (0 : ℚ) ≤ p.2) →
      sumFilled l ≤ sumWeights l := by
  intro l
  induction l with
  | nil => intro _; simp [sumFilled, sumWeights]
  | cons p rest ih =>
    intro h
    obtain ⟨b, w⟩ := p
    have hw : (0 : ℚ) ≤ w := h _ (List.mem_cons_self _ _)
    have hr := ih fun q hq => h q (List.mem_cons_of_mem _ hq)
    simp only [sumFilled, sumWeights]
    have : (if b then w else 0) ≤ w := by
      split <;> simp [hw]
    linarith

lemma sumFilled_twice_int :
    ∀ {l : List (Bool × ℚ)}, (∀ p ∈ l, ∃ m : ℤ, p.2 * 2 = (m : ℚ)) →
      ∃ k : ℤ, sumFilled l * 2 = (k : ℚ) := by
  intro l
  induction l with
  | nil => intro _; exact ⟨0, by simp [sumFilled]⟩
  | cons p rest ih =>
    intro h
    obtain ⟨b, w⟩ := p
    obtain ⟨m, hm⟩ := h _ (List.mem_cons_self _ _)
    obtain ⟨k, hk⟩ := ih fun q hq => h q (List.mem_cons_of_mem _ hq)
    refine ⟨(if b then m else 0) + k, ?_⟩
    simp only [sumFilled, add_mul]
    rw [hk]
    push_cast
    split <;> simp [hm]

lemma quality_score_eq_eight_mul (r : Record) :
    quality_score r = 8 * sumFilled (critical_fields r) := by
  unfold quality_score
  rw [sumWeights_critical, if_pos (by norm_num)]
  field_simp
  ring

lemma quality_score_intCast (r : Record) :
    ∃ k : ℤ, quality_score r = ((4 * k : ℤ) : ℚ) := by
  obtain ⟨k, hk⟩ := sumFilled_twice_int (critical_weights_half_int r)
  refine ⟨k, ?_⟩
  rw [quality_score_eq_eight_mul]
  push_cast
  linarith

lemma round2_intCast (k : ℤ) : round2 ((k : ℚ)) = (k : ℚ) := by
  have h1 : ((k : ℚ)) * 100 = (((100 * k : ℤ)) : ℚ) := by push_cast; ring
  unfold round2 roundHalfEven
  rw [h1, Int.floor_intCast]
  rw [if_pos (by norm_num)]
  push_cast
  ring

lemma stored_score_eq_quality_score (r : Record) :
    (validate_data r).metadata.data_quality_score = quality_score r := by
  obtain ⟨k, hk⟩ := quality_score_intCast r
  simp only [validate_data]
  rw [hk, round2_intCast]

/-- C2: the stored validation status is `"valid"` iff the stored quality
score is at least 60 (in particular, exactly 60 is `"valid"`), and the
score always lies in `[0, 100]`. -/
theorem validation_status_iff_score_ge_60 (r : Record) :
    ((validate_data r).metadata.validation_status = some "valid"
        ↔ 60 ≤ (validate_data r).metadata.data_quality_score)
    ∧ 0 ≤ (validate_data r).metadata.data_quality_score
    ∧ (validate_data r).metadata.data_quality_score ≤ 100 := by
  have hF0 : 0 ≤ sumFilled (critical_fields r) :=
    sumFilled_nonneg (critical_weights_nonneg r)
  have hFle : sumFilled (critical_fields r) ≤ 25 / 2 := by
    have h := sumFilled_le_sumWeights (critical_weights_nonneg r)
    rwa [sumWeights_critical] at h
  have hq := quality_score_eq_eight_mul r
  have hstored := stored_score_eq_quality_score r
  have hstat : (validate_data r).metadata.validation_status
      = some (if quality_score r ≥ 60 then "valid" else "incomplete") := by
    simp only [validate_data]
  refine ⟨?_, ?_, ?_⟩
  · rw [hstored, hstat]
    by_cases h60 : quality_score r ≥ 60
    · simp [h60]
    · have hne : ("incomplete" : String) ≠ "valid" := by decide
      simp [h60, hne]
  · rw [hstored, hq]
    linarith
  · rw [hstored, hq]
    linarith

/-- Modelled from the claim's words (C3): a field is filled iff its value is
non-null, non-empty after trimming, and its lowercase string form is none of
the sentinels. -/
def specFilledOpt (v : Option String) : Bool :=
  v.isSome && pyStrip (v.getD "") ≠ "" &&
    !(sentinel_values.contains (pyLower (v.getD "")))

/-- Modelled from the claim's words (C3), for the never-null `status`
field. -/
def specFilledStatus (s : String) : Bool :=
  pyStrip s ≠ "" && !(sentinel_values.contains (pyLower s))

/-- Modelled from the claim's words (C3), for the numeric amount: the
string form of a Python float is never empty and is one of the sentinel
strings (`"0.0"`) exactly when the value is zero. -/
def specFilledAmount (q : ℚ) : Bool := q ≠ 0

/-- Modelled from the claim's words (C3): the eight fields and weights. -/
def spec_critical_fields (r : Record) : List (Bool × ℚ) :=
  [(specFilledOpt r.complaint_id, 2),
   (specFilledOpt r.complainant_name, 2),
   (specFilledOpt r.complainant_details.mobile, 3/2),
   (specFilledOpt r.district, 1),
   (specFilledOpt r.date_time, 3/2),
   (specFilledOpt r.crime_type, 3/2),
   (specFilledAmount r.amount_lost, 2),
   (specFilledStatus r.status, 1)]

/-- Modelled from the claim's words (C3):
`100 × (sum of weights of filled fields) / (sum of all weights)`, rounded to
2 decimals. -/
def spec_quality_score (r : Record) : ℚ :=
  round2 (100 * sumFilled (spec_critical_fields r)
    / sumWeights (spec_critical_fields r))

lemma specFilledOpt_eq_strFieldFilled (v : Option String) :
    specFilledOpt v = strFieldFilled v := by
  cases v with
  | none => decide
  | some s =>
    by_cases h : pyStrip s = ""
    · simp [specFilledOpt, strFieldFilled, h]
    · have hs : s ≠ "" := by
        intro he
        subst he
        exact h rfl
      simp [specFilledOpt, strFieldFilled, h, hs]

lemma specFilledStatus_eq_statusFilled (s : String) :
    specFilledStatus s = statusFilled s := by
  by_cases h : pyStrip s = ""
  · simp [specFilledStatus, statusFilled, h]
  · have hs : s ≠ "" := by
      intro he
      subst he
      exact h rfl
    simp [specFilledStatus, statusFilled, h, hs]

/-- C3: the stored data-quality score equals the spec's formula —
`100 × (filled weight) / (total weight)` over the eight weighted fields
with the claim's filled test, rounded to 2 decimals. -/
theorem quality_score_matches_spec_formula (r : Record) :
    (validate_data r).metadata.data_quality_score = spec_quality_score r := by
  have hfields : spec_critical_fields r = critical_fields r := by
    simp only [spec_critical_fields, critical_fields,
      specFilledOpt_eq_strFieldFilled, specFilledStatus_eq_statusFilled,
      specFilledAmount, amountFilled]
  have hstored : (validate_data r).metadata.data_quality_score
      = round2 (quality_score r) := by
    simp only [validate_data]
  rw [hstored]
  unfold spec_quality_score
  rw [hfields, sumWeights_critical]
  congr 1
  unfold quality_score
  rw [sumWeights_critical, if_pos (by norm_num)]
  ring

/-! ### C6 — `_extract_platform` precedence -/

/-- C6: the fixed precedence of `_extract_platform` — a UPI-mentioning
sub-category yields the first specific app found anywhere in the text
(case-insensitively) or else `"UPI"`; otherwise card mentions yield
`"Card"`; otherwise banking mentions yield `"Net Banking"`; otherwise the
first transaction's bank field; otherwise the first action with a truthy
beneficiary bank; otherwise `"Unknown"` — together with the claim's three
concrete instances. -/
theorem extract_platform_precedence (d : PdfData) (text : String) :
    (pyContains (d.sub_category.getD "") "UPI" = true →
      (∀ p, upi_platforms.find? (fun q => searchCI q text) = some p →
          extract_platform d text = p) ∧
      (upi_platforms.find? (fun q => searchCI q text) = none →
          extract_platform d text = "UPI")) ∧
    (pyContains (d.sub_category.getD "") "UPI" = false →
      pyContains (d.sub_category.getD "") "Card" = true →
      extract_platform d text = "Card") ∧
    (pyContains (d.sub_category.getD "") "UPI" = false →
      pyContains (d.sub_category.getD "") "Card" = false →
      (pyContains (d.sub_category.getD "") "Net Banking" ||
        pyContains (d.sub_category.getD "") "Banking") = true →
      extract_platform d text = "Net Banking") ∧
    (pyContains (d.sub_category.getD "") "UPI" = false →
      pyContains (d.sub_category.getD "") "Card" = false →
      (pyContains (d.sub_category.getD "") "Net Banking" ||
        pyContains (d.sub_category.getD "") "Banking") = false →
      (∀ t ts b, d.transactions = t :: ts → t.bank = some b →
          extract_platform d text = b) ∧
      ((d.transactions = [] ∨
          ∃ t ts, d.transactions = t :: ts ∧ t.bank = none) →
        extract_platform d text = platformFromActions d.actions_taken)) ∧
    (∀ a, d.actions_taken.find?
        (fun a => a.beneficiary_bank.getD "" ≠ "") = some a →
      platformFromActions d.actions_taken = a.beneficiary_bank.getD "") ∧
    (d.actions_taken.find? (fun a => a.beneficiary_bank.getD "" ≠ "") = none →
      platformFromActions d.actions_taken = "Unknown") ∧
    extract_platform { sub_category := some "UPI - PhonePe" } "" = "UPI" ∧
    extract_platform { sub_category := some "UPI" }
      "Paid through PhonePe wallet" = "PhonePe" ∧
    extract_platform { sub_category := some "Debit Card Fraud" } "" = "Card" := by
  refine ⟨?_, ?_, ?_, ?_, ?_, ?_, by decide, by decide, by decide⟩
  · intro hUPI
    constructor
    · intro p hp
      simp [extract_platform, hUPI, hp]
    · intro hp
      simp [extract_platform, hUPI, hp]
  · intro hUPI hCard
    simp [extract_platform, hUPI, hCard]
  · intro hUPI hCard hBank
    simp only [Bool.or_eq_true] at hBank
    simp [extract_platform, hUPI, hCard, hBank]
  · intro hUPI hCard hBank
    rw [Bool.or_eq_false_iff] at hBank
    constructor
    · intro t ts b ht hb
      simp [extract_platform, hUPI, hCard, hBank.1, hBank.2, ht, hb]
    · intro hcases
      rcases hcases with h | ⟨t, ts, ht, hb⟩
      · simp [extract_platform, hUPI, hCard, hBank.1, hBank.2, h]
      · simp [extract_platform, hUPI, hCard, hBank.1, hBank.2, ht, hb]
  · intro a ha
    simp only [ne_eq, decide_not] at ha
    simp [platformFromActions, ha]
  · intro ha
    simp only [ne_eq, decide_not] at ha
    simp [platformFromActions, ha]

/-- C6, witness: the UPI-app branch and the transaction-bank branch at
concrete inputs. -/
theorem extract_platform_precedence_witness :
    extract_platform { sub_category := some "UPI" }
        "Paid through PhonePe wallet" = "PhonePe" ∧
      extract_platform
        { sub_category := some "Online Fraud",
          transactions := [{ bank := some "SBI Bank" }] } "" = "SBI Bank" := by
  constructor
  · exact ((extract_platform_precedence { sub_category := some "UPI" }
      "Paid through PhonePe wallet").1 (by decide)).1 "PhonePe" (by decide)
  · have h := (extract_platform_precedence
      { sub_category := some "Online Fraud",
        transactions := [{ bank := some "SBI Bank" }] } "").2.2.2.1
      (by decide) (by decide) (by decide)
    exact h.1 { bank := some "SBI Bank" } [] "SBI Bank" rfl rfl

/-! ### C1 / C10 — duplicate detection and the registry frame -/

lemma is_duplicate_empty (r : Record) : is_duplicate ∅ r = false := by
  cases h : r.complaint_id <;> simp [is_duplicate, h]

lemma dedup_step_flag (S : Finset String) (r : Record) :
    (dedup_step S r).1.metadata.is_duplicate = is_duplicate S r := by
  by_cases h : is_duplicate S r <;> simp [dedup_step, h]

lemma subset_register_complaint (S : Finset String) (r : Record) :
    S ⊆ register_complaint S r := by
  unfold register_complaint
  cases h : r.complaint_id with
  | none =>
    intro x hx
    exact Finset.mem_insert_of_mem hx
  | some cid =>
    dsimp only
    by_cases hc : cid ≠ ""
    · rw [if_pos hc]
      intro x hx
      exact Finset.mem_insert_of_mem (Finset.mem_insert_of_mem hx)
    · rw [if_neg hc]
      intro x hx
      exact Finset.mem_insert_of_mem hx

lemma mem_register_complaint {S : Finset String} {r : Record} {x : String}
    (hx : x ∈ register_complaint S r) :
    x ∈ S ∨ x = complaint_hash r ∨
      ∃ cid, r.complaint_id = some cid ∧ x = cid := by
  unfold register_complaint at hx
  cases h : r.complaint_id with
  | none =>
    rw [h] at hx
    dsimp only at hx
    rcases Finset.mem_insert.mp hx with h1 | h1
    · exact Or.inr (Or.inl h1)
    · exact Or.inl h1
  | some cid =>
    rw [h] at hx
    dsimp only at hx
    by_cases hc : cid ≠ ""
    · rw [if_pos hc] at hx
      rcases Finset.mem_insert.mp hx with h1 | h1
      · exact Or.inr (Or.inl h1)
      · rcases Finset.mem_insert.mp h1 with h2 | h2
        · exact Or.inr (Or.inr ⟨cid, rfl, h2⟩)
        · exact Or.inl h2
    · rw [if_neg hc] at hx
      rcases Finset.mem_insert.mp hx with h1 | h1
      · exact Or.inr (Or.inl h1)
      · exact Or.inl h1

/-- C1: on a fresh registry the first submission of a record is not flagged
and the second is; two records agreeing on (name, mobile, unified date-time,
amount) — regardless of their identifiers — trigger the duplicate flag on
the second submission; a record is duplicate exactly when its truthy
identifier or its content fingerprint is already a member; and the flag is
computed from the registry as it was before registration. -/
theorem dedup_second_submission_duplicate (r1 r2 : Record)
    (hn : r2.complainant_name = r1.complainant_name)
    (hm : r2.complainant_details.mobile = r1.complainant_details.mobile)
    (hdt : r2.date_time = r1.date_time)
    (ha : r2.amount_lost = r1.amount_lost) :
    ((dedup_step ∅ r1).1.metadata.is_duplicate = false ∧
      (dedup_step (dedup_step ∅ r1).2 r2).1.metadata.is_duplicate = true) ∧
    (∀ S r, is_duplicate S r = true ↔
      ((∃ cid, r.complaint_id = some cid ∧ cid ≠ "" ∧ cid ∈ S) ∨
        complaint_hash r ∈ S)) ∧
    (∀ S r, (dedup_step S r).1.metadata.is_duplicate = is_duplicate S r) := by
  have hhash : complaint_hash r2 = complaint_hash r1 := by
    unfold complaint_hash hash_string
    rw [hn, hm, hdt, ha]
  refine ⟨⟨?_, ?_⟩, ?_, ?_⟩
  · rw [dedup_step_flag, is_duplicate_empty]
  · have hmem : complaint_hash r2 ∈ (dedup_step ∅ r1).2 := by
      rw [hhash]
      simp only [dedup_step, is_duplicate_empty, Bool.false_eq_true, if_false]
      exact Finset.mem_insert_self _ _
    have hdup : is_duplicate (dedup_step ∅ r1).2 r2 = true := by
      unfold is_duplicate
      simp [hmem]
    rw [dedup_step_flag]
    exact hdup
  · intro S r
    unfold is_duplicate
    cases h : r.complaint_id with
    | none => simp
    | some cid =>
      simp only [Bool.or_eq_true, Bool.and_eq_true, decide_eq_true_eq,
        Option.some.injEq]
      constructor
      · rintro (⟨hne, hmem⟩ | hmem)
        · exact Or.inl ⟨cid, rfl, hne, hmem⟩
        · exact Or.inr hmem
      · rintro (⟨c, hc, hne, hmem⟩ | hmem)
        · cases hc
          exact Or.inl ⟨hne, hmem⟩
        · exact Or.inr hmem
  · intro S r
    exact dedup_step_flag S r

def dupRecordA : Record :=
  { standard_schema with
    complaint_id := some "9001",
    complainant_name := some "RAHUL KUMAR",
    complainant_details := { name := some "RAHUL KUMAR", mobile := some "9876543210" },
    date_time := some "2023-10-05 14:30:00",
    amount_lost := 25000 }

def dupRecordB : Record := { dupRecordA with complaint_id := some "9002" }

/-- C1, witness: same content fingerprint, different identifiers. -/
theorem dedup_second_submission_duplicate_witness :
    (dedup_step ∅ dupRecordA).1.metadata.is_duplicate = false ∧
      (dedup_step (dedup_step ∅ dupRecordA).2 dupRecordB).1.metadata.is_duplicate
        = true :=
  (dedup_second_submission_duplicate dupRecordA dupRecordB rfl rfl rfl rfl).1

/-- C10: a duplicate leaves the registry untouched; the registry only ever
grows; and anything new in it after a step is one of the stepped record's
two keys (identifier or fingerprint), which are added only on first
occurrence. -/
theorem dedup_registry_frame (S : Finset String) (r : Record) :
    (is_duplicate S r = true → (dedup_step S r).2 = S) ∧
    S ⊆ (dedup_step S r).2 ∧
    ∀ x ∈ (dedup_step S r).2, x ∈ S ∨ x = complaint_hash r ∨
      ∃ cid, r.complaint_id = some cid ∧ x = cid := by
  by_cases h : is_duplicate S r = true
  · refine ⟨fun _ => by simp [dedup_step, h], ?_, ?_⟩
    · simp [dedup_step, h]
    · simp only [dedup_step, h, if_true]
      intro x hx
      exact Or.inl hx
  · have hb : is_duplicate S r = false := by
      cases hin : is_duplicate S r
      · rfl
      · exact absurd hin h
    refine ⟨fun hcontra => absurd hcontra h, ?_, ?_⟩
    · simp only [dedup_step, hb, Bool.false_eq_true, if_false]
      exact subset_register_complaint _ _
    · simp only [dedup_step, hb, Bool.false_eq_true, if_false]
      intro x hx
      exact mem_register_complaint hx

def dupSeenRecord : Record := { standard_schema with complaint_id := some "7001" }

/-- C10, witness: a registry already containing the identifier is left
exactly as it was. -/
theorem dedup_registry_frame_witness :
    is_duplicate {"7001"} dupSeenRecord = true ∧
      (dedup_step {"7001"} dupSeenRecord).2 = {"7001"} := by
  have h : is_duplicate {"7001"} dupSeenRecord = true := by decide
  exact ⟨h, (dedup_registry_frame {"7001"} dupSeenRecord).1 h⟩

/-! ### C9 — `process_file` always returns a well-shaped result -/

/-- C9: for every input and registry state, `process_file` returns either a
success-shaped dict (with record and summary, no error fields) or an
error-shaped dict (with message and exception-type name, no data fields):
the `try`/`except Exception` wrapper converts every stage failure into the
latter. -/
theorem process_file_total_result_shape (S : Finset String) (f : InputFile)
    (now : String) :
    ((process_file S f now).1.status = "success" ∧
      ((process_file S f now).1.data).isSome = true ∧
      ((process_file S f now).1.summary).isSome = true ∧
      (process_file S f now).1.error = none ∧
      (process_file S f now).1.error_type = none) ∨
    ((process_file S f now).1.status = "error" ∧
      ((process_file S f now).1.error).isSome = true ∧
      ((process_file S f now).1.error_type).isSome = true ∧
      (process_file S f now).1.data = none ∧
      (process_file S f now).1.summary = none) := by
  cases h : processBody S f now with
  | ok v =>
    obtain ⟨r, S'⟩ := v
    left
    simp [process_file, h]
  | error e =>
    right
    simp [process_file, h]

/-! ### C7 — a file with unsupported extension in a batch -/

def batchFile1 : InputFile :=
  { file_name := "complaint1.csv", suffix := ".csv", file_exists := true,
    load := .ok { standard_schema with
      complaint_id := some "5001", complainant_name := some "ASHA",
      complainant_details := { name := some "ASHA", mobile := some "9000000001" } } }

def batchFile2 : InputFile :=
  { file_name := "notes.txt", suffix := ".txt", file_exists := true,
    load := .error ⟨"ValueError", "never reached"⟩ }

def batchFile3 : InputFile :=
  { file_name := "complaint3.pdf", suffix := ".pdf", file_exists := true,
    load := .ok { standard_schema with
      complaint_id := some "5003", complainant_name := some "VIJAY",
      complainant_details := { name := some "VIJAY", mobile := some "9000000003" } } }

/-- C7, counterexample: in the claim's 3-file scenario the per-file error
result carries `error_type = "ValueError"` (the Python exception class
raised for an unsupported extension), not `"UnsupportedFormat"`. -/
theorem batch_unsupported_error_type_counterexample :
    ((batch_results ∅ "2024-01-01T00:00:00"
        [batchFile1, batchFile2, batchFile3]).1.map
          (fun r => r.error_type)) = [none, some "ValueError", none] ∧
      (some "ValueError" : Option String) ≠ some "UnsupportedFormat" :=
  ⟨by decide, by decide⟩

/-- C7 (amended): the unsupported file yields a structured error result
(status `"error"`, message naming the format, `error_type = "ValueError"`),
the batch is not aborted, the other two files are still processed, and the
batch summary shows `successful = 2`, `failed = 1` with entry 1 an error
entry. -/
theorem batch_unsupported_format_amended :
    (batch_process ∅ [batchFile1, batchFile2, batchFile3]
        "2024-01-01T00:00:00").successful = 2 ∧
    (batch_process ∅ [batchFile1, batchFile2, batchFile3]
        "2024-01-01T00:00:00").failed = 1 ∧
    ((batch_process ∅ [batchFile1, batchFile2, batchFile3]
        "2024-01-01T00:00:00").results.map BatchEntry.isErr)
      = [false, true, false] ∧
    ((batch_process ∅ [batchFile1, batchFile2, batchFile3]
        "2024-01-01T00:00:00").results.get? 1)
      = some (.err (some "Unsupported file format: .txt")) ∧
    ((batch_results ∅ "2024-01-01T00:00:00"
        [batchFile1, batchFile2, batchFile3]).1.map (fun r => r.status))
      = ["success", "error", "success"] ∧
    ((batch_results ∅ "2024-01-01T00:00:00"
        [batchFile1, batchFile2, batchFile3]).1.map (fun r => r.error_type))
      = [none, some "ValueError", none] :=
  ⟨by decide, by decide, by decide, by decide, by decide, by decide⟩

/-! ### C5 — `_normalize_date` on already-normalized strings -/

/-- The normalized date-only shape `YYYY-MM-DD` (4-digit year). -/
def normDateStr (y m d : ℕ) : String :=
  ⟨pad4 y ++ '-' :: (pad2 m ++ '-' :: pad2 d)⟩

/-- The normalized date-time shape `YYYY-MM-DD HH:MM:SS`. -/
def normDateTimeStr (y m d h mi s : ℕ) : String :=
  ⟨pad4 y ++ '-' :: (pad2 m ++ '-' :: (pad2 d ++ ' ' ::
    (pad2 h ++ ':' :: (pad2 mi ++ ':' :: pad2 s))))⟩

/-- C5, counterexample: re-parsing with `dayfirst=True` transposes the month
and day of `2023-01-02`; a midnight date-time collapses to date-only; a
year below 1000 loses its zero padding.  Idempotence as claimed fails. -/
theorem normalize_date_not_idempotent_counterexample :
    normalize_date "2023-01-02" = some "2023-02-01" ∧
      normalize_date "2023-01-02" ≠ some "2023-01-02" ∧
      normalize_date "2023-05-10 00:00:00" = some "2023-10-05" ∧
      normalize_date "0999-02-03" = some "999-03-02" :=
  ⟨by decide, by decide, by decide, by decide⟩

lemma digitChar_isDigit {k : ℕ} (h : k < 10) :
    (Nat.digitChar k).isDigit = true := by
  interval_cases k <;> decide

lemma charVal_digitChar {k : ℕ} (h : k < 10) :
    charVal (Nat.digitChar k) = k := by
  interval_cases k <;> decide

lemma digitChar_mod_isDigit (n : ℕ) :
    (Nat.digitChar (n % 10)).isDigit = true :=
  digitChar_isDigit (Nat.mod_lt _ (by norm_num))

lemma charVal_digitChar_mod (n : ℕ) :
    charVal (Nat.digitChar (n % 10)) = n % 10 :=
  charVal_digitChar (Nat.mod_lt _ (by norm_num))

lemma daysInMonth_le_31 (y m : ℕ) : daysInMonth y m ≤ 31 := by
  unfold daysInMonth
  split_ifs <;> omega

lemma yearChars_of_ge_1000 {y : ℕ} (h : 1000 ≤ y) : yearChars y = pad4 y := by
  unfold yearChars
  rw [if_neg (by omega), if_neg (by omega), if_neg (by omega)]

lemma dateutilParse_normDate {y m d : ℕ}
    (hy2 : y ≤ 9999) (hm2 : m ≤ 12) (hd31 : d ≤ 31) :
    dateutilParse (normDateStr y m d).data
      = resolveDayfirst y m d 0 0 0 := by
  simp only [normDateStr, pad4, pad2, List.cons_append, List.nil_append]
  simp only [dateutilParse, allDigits, List.all_cons, List.all_nil,
    digitChar_mod_isDigit, Bool.and_true, Bool.true_and, if_true,
    charVal_digitChar_mod]
  congr 1 <;> omega

lemma dateutilParse_normDateTime {y m d h mi s : ℕ}
    (hy2 : y ≤ 9999) (hm2 : m ≤ 12) (hd31 : d ≤ 31)
    (hh : h ≤ 23) (hmi : mi ≤ 59) (hs : s ≤ 59) :
    dateutilParse (normDateTimeStr y m d h mi s).data
      = resolveDayfirst y m d h mi s := by
  simp only [normDateTimeStr, pad4, pad2, List.cons_append, List.nil_append]
  simp only [dateutilParse, allDigits, List.all_cons, List.all_nil,
    digitChar_mod_isDigit, Bool.and_true, Bool.true_and, if_true,
    charVal_digitChar_mod]
  congr 1 <;> omega

lemma resolveDayfirst_of_day_gt_12 {y m d h mi s : ℕ}
    (hy1 : 1000 ≤ y) (hy2 : y ≤ 9999) (hm1 : 1 ≤ m) (hm2 : m ≤ 12)
    (hd1 : 12 < d) (hd2 : d ≤ daysInMonth y m)
    (hh : h ≤ 23) (hmi : mi ≤ 59) (hs : s ≤ 59) :
    resolveDayfirst y m d h mi s = some ⟨y, m, d, h, mi, s⟩ := by
  unfold resolveDayfirst
  rw [if_pos (by omega)]
  dsimp only
  rw [if_pos]
  simp only [Bool.and_eq_true, decide_eq_true_eq]
  refine ⟨⟨⟨⟨⟨⟨⟨⟨?_, ?_⟩, ?_⟩, ?_⟩, ?_⟩, ?_⟩, ?_⟩, ?_⟩, ?_⟩ <;> omega

/-- C5 (amended): `_normalize_date` re-parses with `dayfirst=True`, so an
already-normalized string is returned unchanged exactly on the inputs where
re-parsing cannot transpose day and month: 4-digit year, valid calendar
date with day component greater than 12, and — for the date-time shape — a
valid time that is not `00:00:00`.  When day and month are both at most 12
the components are transposed, and a midnight date-time collapses to the
date-only shape (see the counterexample). -/
theorem normalize_date_idempotent_amended (y m d h mi s : ℕ)
    (hy1 : 1000 ≤ y) (hy2 : y ≤ 9999) (hm1 : 1 ≤ m) (hm2 : m ≤ 12)
    (hd1 : 12 < d) (hd2 : d ≤ daysInMonth y m)
    (hh : h ≤ 23) (hmi : mi ≤ 59) (hs : s ≤ 59)
    (hnz : ¬(h = 0 ∧ mi = 0 ∧ s = 0)) :
    normalize_date (normDateStr y m d) = some (normDateStr y m d) ∧
      normalize_date (normDateTimeStr y m d h mi s)
        = some (normDateTimeStr y m d h mi s) := by
  have hd31 : d ≤ 31 := le_trans hd2 (daysInMonth_le_31 y m)
  constructor
  · have hne : normDateStr y m d ≠ "" := by
      simp [normDateStr, pad4, String.ext_iff]
    unfold normalize_date
    rw [if_neg hne]
    unfold normalizeDateCore
    rw [dateutilParse_normDate hy2 hm2 hd31,
      resolveDayfirst_of_day_gt_12 hy1 hy2 hm1 hm2 hd1 hd2
        (by norm_num) (by norm_num) (by norm_num)]
    dsimp only
    rw [if_neg (by simp)]
    unfold strfDate
    rw [yearChars_of_ge_1000 hy1]
    rfl
  · have hne : normDateTimeStr y m d h mi s ≠ "" := by
      simp [normDateTimeStr, pad4, String.ext_iff]
    unfold normalize_date
    rw [if_neg hne]
    unfold normalizeDateCore
    rw [dateutilParse_normDateTime hy2 hm2 hd31 hh hmi hs,
      resolveDayfirst_of_day_gt_12 hy1 hy2 hm1 hm2 hd1 hd2 hh hmi hs]
    dsimp only
    rw [if_pos (by simp only [Bool.or_eq_true, decide_eq_true_eq, ne_eq]; tauto)]
    unfold strfDateTime strfDate
    rw [yearChars_of_ge_1000 hy1]
    simp [normDateTimeStr]

/-- C5, witness: a valid date with day 25 and a non-midnight time are fixed
points of `_normalize_date`. -/
theorem normalize_date_idempotent_amended_witness :
    normalize_date (normDateStr 2023 5 25) = some (normDateStr 2023 5 25) ∧
      normalize_date (normDateTimeStr 2023 5 25 14 30 0)
        = some (normDateTimeStr 2023 5 25 14 30 0) :=
  normalize_date_idempotent_amended 2023 5 25 14 30 0
    (by decide) (by decide) (by decide) (by decide) (by decide) (by decide)
    (by decide) (by decide) (by decide) (by decide)


end NCRP
